import Mathlib

/-!
Verification of the IS31FL3731-style LED-matrix driver and text renderer
in `pico_ed/lib/Pico_ed.py`.

The embedding models every operation as a pure function that returns the
list of bus writes it performs together with an `Except` result (`.error`
when the Python code raises).  Python integers are `Int`; Python floor
division `//` is `Int.fdiv` and Python `%` with a positive modulus is
`Int.emod` (Lean's `%` on `Int`).
-/

namespace PicoEd

/-- A single write transaction on the two-wire bus:
`i2c.writeto_mem(address, reg, data)`. -/
structure BusW where
  reg : Int
  data : List Int
deriving DecidableEq

/-- Register constant `_MODE_REGISTER = const(0x00)`. -/
def _MODE_REGISTER : Int := 0x00

/-- Register constant `_FRAME_REGISTER = const(0x01)`. -/
def _FRAME_REGISTER : Int := 0x01

/-- Register constant `_BLINK_REGISTER = const(0x05)`. -/
def _BLINK_REGISTER : Int := 0x05

/-- Register constant `_GAIN_REGISTER = const(0x0b)`. -/
def _GAIN_REGISTER : Int := 0x0b

/-- Register constant `_ADC_REGISTER = const(0x0c)`. -/
def _ADC_REGISTER : Int := 0x0c

/-- Bank constant `_CONFIG_BANK = const(0x0b)`. -/
def _CONFIG_BANK : Int := 0x0b

/-- Protocol address `_BANK_ADDRESS = const(0xfd)`. -/
def _BANK_ADDRESS : Int := 0xfd

/-- Mode constant `_PICTURE_MODE = const(0x00)`. -/
def _PICTURE_MODE : Int := 0x00

/-- Mode constant `_AUDIOPLAY_MODE = const(0x18)`. -/
def _AUDIOPLAY_MODE : Int := 0x18

/-- Offset constant `_BLINK_OFFSET = const(0x12)`. -/
def _BLINK_OFFSET : Int := 0x12

/-- Offset constant `_COLOR_OFFSET = const(0x24)`. -/
def _COLOR_OFFSET : Int := 0x24

namespace Matrix

/-- `Matrix.width = 17`. -/
def width : Int := 17

/-- `Matrix.height = 7`. -/
def height : Int := 7

/-- The write path of `Matrix._bank(bank)`: a single bus write of the bank
id to the bank-select address. -/
def bankWrite (bank : Int) : List BusW :=
  [⟨_BANK_ADDRESS, [bank]⟩]

/-- The write path of `Matrix._register(bank, register, value)`: select the
bank, then write one byte to the register. -/
def registerWrite (bank register value : Int) : List BusW :=
  bankWrite bank ++ [⟨register, [value]⟩]

/-- `Matrix._pixel_addr(x, y)`: for `x > 8` the source rebinds
`x = 17 - x`, `y = y + 8`; otherwise `y = 7 - y`; it returns `x*16 + y`. -/
def _pixel_addr (x y : Int) : Int :=
  if x > 8 then (17 - x) * 16 + (y + 8) else x * 16 + (7 - y)

/-- `Matrix.pixel(x, y, color, blink, frame)`.  `curFrame` stands for
`self._frame`.  The source returns silently when
`not 0 <= x <= self.width` or `not 0 <= y <= self.height`; the per-pixel
blink path is commented out in the source, so the `blink` argument is
ignored and `color = None` performs no write. -/
def pixel (curFrame : Int) (x y : Int) (color : Option Int)
    (frame : Option Int) : List BusW × Except String Unit :=
  if ¬ (0 ≤ x ∧ x ≤ width) then ([], .ok ())
  else if ¬ (0 ≤ y ∧ y ≤ height) then ([], .ok ())
  else
    let p := _pixel_addr x y
    let fr := frame.getD curFrame
    match color with
    | none => ([], .ok ())
    | some c =>
      if ¬ (0 ≤ c ∧ c ≤ 255) then ([], .error "Color out of range")
      else (registerWrite fr (_COLOR_OFFSET + p) c, .ok ())

/-- The blink-plane half of `Matrix.fill`: when `blink` is given, write
`bool(blink) * 0xff` to each of the 18 blink-mask bytes via `_register`. -/
def fillBlink (fr : Int) (blink : Option Bool) : List BusW :=
  match blink with
  | none => []
  | some b =>
    ((List.range 18).map
      (fun col : Nat =>
        registerWrite fr (_BLINK_OFFSET + (col : Int)) (cond b 255 0))).flatten

/-- `Matrix.fill(color, blink, frame)`.  The source first resolves the
frame, then calls `self._bank(frame)` (one bus write), and only then
validates the color; an invalid color raises after that bank write.
A valid color is written as six 24-byte row transfers. -/
def fill (curFrame : Int) (color : Option Int) (blink : Option Bool)
    (frame : Option Int) : List BusW × Except String Unit :=
  let fr := frame.getD curFrame
  let t0 := bankWrite fr
  match color with
  | some c =>
    if ¬ (0 ≤ c ∧ c ≤ 255) then (t0, .error "Color out of range")
    else
      let rows := (List.range 6).map
        (fun row : Nat =>
          BusW.mk (_COLOR_OFFSET + (row : Int) * 24) (List.replicate 24 c))
      (t0 ++ rows ++ fillBlink fr blink, .ok ())
  | none => (t0 ++ fillBlink fr blink, .ok ())

/-- The setter path of `Matrix.frame(frame, show)`.  `cur` stands for
`self._frame`; the result is the new `self._frame`, the bus writes, and
the outcome.  The source accepts `0 <= frame <= 8`. -/
def frame (cur : Int) (f : Int) (showFlag : Bool) :
    Int × List BusW × Except String Unit :=
  if ¬ (0 ≤ f ∧ f ≤ 8) then (cur, [], .error "Frame out of range")
  else (f, (if showFlag then registerWrite _CONFIG_BANK _FRAME_REGISTER f else []),
        .ok ())

/-- The setter path of `Matrix.blink(rate)` (rate given, modelled for
nonnegative rates): the bus writes performed. -/
def blink (rate : Nat) : List BusW :=
  if rate = 0 then registerWrite _CONFIG_BANK _BLINK_REGISTER 0
  else registerWrite _CONFIG_BANK _BLINK_REGISTER
    (((rate / 270) &&& 0x07 ||| 0x08 : Nat) : Int)

/-- The value the setter path of `Matrix.blink(rate)` leaves in the blink
register. -/
def blinkRegisterValue (rate : Nat) : Nat :=
  if rate = 0 then 0 else (rate / 270) &&& 0x07 ||| 0x08

/-- The query path of `Matrix.blink()` (rate omitted): reads the blink
register and returns `(value & 0x07) * 270`. -/
def blinkQuery (reg : Nat) : Nat := (reg &&& 0x07) * 270

/-- `Matrix.audio_play(sample_rate, audio_gain, agc_enable, agc_fast)`:
the bus writes performed and the outcome.  The source validates the scaled
sample rate, writes the ADC register, and only then validates the scaled
gain, so an invalid gain raises after the ADC write. -/
def audio_play (sample_rate audio_gain : Int) (agc_enable agc_fast : Bool) :
    List BusW × Except String Unit :=
  if sample_rate = 0 then
    (registerWrite _CONFIG_BANK _MODE_REGISTER _PICTURE_MODE, .ok ())
  else
    let sr := Int.fdiv sample_rate 46
    if ¬ (1 ≤ sr ∧ sr ≤ 256) then ([], .error "Sample rate out of range")
    else
      let t1 := registerWrite _CONFIG_BANK _ADC_REGISTER (sr % 256)
      let ag := Int.fdiv audio_gain 3
      if ¬ (0 ≤ ag ∧ ag ≤ 7) then (t1, .error "Audio gain out of range")
      else
        let gval : Int :=
          (((cond agc_enable 1 0 : Nat) <<< 3 ||| (cond agc_fast 1 0 : Nat) <<< 4
            ||| ag.toNat : Nat) : Int)
        (t1 ++ registerWrite _CONFIG_BANK _GAIN_REGISTER gval
            ++ registerWrite _CONFIG_BANK _MODE_REGISTER _AUDIOPLAY_MODE, .ok ())

end Matrix

namespace Display

/-- The glyph table `Display.wordStock`: each supported character maps to
the list of lit `(dx, dy)` offsets of its 5x7 glyph, transcribed from the
source dictionary. -/
def wordStock : List (Char × List (Int × Int)) := [
  ('A', [(1, 0), (2, 0), (3, 0), (0, 1), (4, 1), (0, 2), (4, 2), (0, 3), (4, 3), (0, 4), (1, 4), (2, 4), (3, 4), (4, 4), (0, 5), (4, 5), (0, 6), (4, 6)]),
  ('B', [(0, 0), (1, 0), (2, 0), (3, 0), (0, 1), (4, 1), (0, 2), (4, 2), (0, 3), (1, 3), (2, 3), (3, 3), (0, 4), (4, 4), (0, 5), (4, 5), (0, 6), (1, 6), (2, 6), (3, 6)]),
  ('C', [(1, 0), (2, 0), (3, 0), (0, 1), (4, 1), (0, 2), (0, 3), (0, 4), (0, 5), (4, 5), (1, 6), (2, 6), (3, 6)]),
  ('D', [(0, 0), (1, 0), (2, 0), (0, 1), (3, 1), (0, 2), (4, 2), (0, 3), (4, 3), (0, 4), (4, 4), (0, 5), (3, 5), (0, 6), (1, 6), (2, 6)]),
  ('E', [(0, 0), (1, 0), (2, 0), (3, 0), (4, 0), (0, 1), (0, 2), (0, 3), (1, 3), (2, 3), (3, 3), (0, 4), (0, 5), (0, 6), (1, 6), (2, 6), (3, 6), (4, 6)]),
  ('F', [(0, 0), (1, 0), (2, 0), (3, 0), (4, 0), (0, 1), (0, 2), (0, 3), (1, 3), (2, 3), (0, 4), (0, 5), (0, 6)]),
  ('G', [(1, 0), (2, 0), (3, 0), (0, 1), (4, 1), (0, 2), (0, 3), (0, 4), (3, 4), (4, 4), (0, 5), (4, 5), (1, 6), (2, 6), (3, 6)]),
  ('H', [(0, 0), (4, 0), (0, 1), (4, 1), (0, 2), (4, 2), (0, 3), (1, 3), (2, 3), (3, 3), (4, 3), (0, 4), (4, 4), (0, 5), (4, 5), (0, 6), (4, 6)]),
  ('I', [(1, 0), (2, 0), (3, 0), (2, 1), (2, 2), (2, 3), (2, 4), (2, 5), (2, 6), (1, 6), (2, 6), (3, 6)]),
  ('J', [(2, 0), (3, 0), (4, 0), (3, 1), (3, 2), (3, 3), (3, 4), (0, 5), (3, 5), (1, 6), (2, 6)]),
  ('K', [(0, 0), (4, 0), (0, 1), (3, 1), (0, 2), (2, 2), (0, 3), (1, 3), (0, 4), (2, 4), (0, 5), (3, 5), (0, 6), (4, 6)]),
  ('L', [(0, 0), (0, 1), (0, 2), (0, 3), (0, 4), (0, 5), (0, 6), (1, 6), (2, 6), (3, 6), (4, 6)]),
  ('M', [(0, 0), (4, 0), (0, 1), (1, 1), (3, 1), (4, 1), (0, 2), (2, 2), (4, 2), (0, 3), (4, 3), (0, 4), (4, 4), (0, 5), (4, 5), (0, 6), (4, 6)]),
  ('N', [(0, 0), (4, 0), (0, 1), (4, 1), (0, 2), (1, 2), (4, 2), (0, 3), (2, 3), (4, 3), (0, 4), (3, 4), (4, 4), (0, 5), (4, 5), (0, 6), (4, 6)]),
  ('O', [(1, 0), (2, 0), (3, 0), (0, 1), (4, 1), (0, 2), (4, 2), (0, 3), (4, 3), (0, 4), (4, 4), (0, 5), (4, 5), (1, 6), (2, 6), (3, 6)]),
  ('P', [(0, 0), (1, 0), (2, 0), (3, 0), (0, 1), (4, 1), (0, 2), (4, 2), (0, 3), (1, 3), (2, 3), (3, 3), (0, 4), (0, 5), (0, 6)]),
  ('Q', [(1, 0), (2, 0), (3, 0), (0, 1), (4, 1), (0, 2), (4, 2), (0, 3), (4, 3), (0, 4), (2, 4), (4, 4), (0, 5), (3, 5), (1, 6), (2, 6), (4, 6)]),
  ('R', [(0, 0), (1, 0), (2, 0), (3, 0), (0, 1), (4, 1), (0, 2), (4, 2), (0, 3), (1, 3), (2, 3), (3, 3), (0, 4), (2, 4), (0, 5), (3, 5), (0, 6), (4, 6)]),
  ('S', [(1, 0), (2, 0), (3, 0), (4, 0), (0, 1), (0, 2), (1, 3), (2, 3), (3, 3), (4, 4), (4, 5), (0, 6), (1, 6), (2, 6), (3, 6)]),
  ('T', [(0, 0), (1, 0), (2, 0), (3, 0), (4, 0), (2, 1), (2, 2), (2, 3), (2, 4), (2, 5), (2, 6)]),
  ('U', [(0, 0), (4, 0), (0, 1), (4, 1), (0, 2), (4, 2), (0, 3), (4, 3), (0, 4), (4, 4), (0, 5), (4, 5), (1, 6), (2, 6), (3, 6)]),
  ('V', [(0, 0), (4, 0), (0, 1), (4, 1), (0, 2), (4, 2), (0, 3), (4, 3), (0, 4), (4, 4), (1, 5), (3, 5), (2, 6)]),
  ('W', [(0, 0), (4, 0), (0, 1), (4, 1), (0, 2), (4, 2), (0, 3), (2, 3), (4, 3), (0, 4), (2, 4), (4, 4), (0, 5), (1, 5), (3, 5), (4, 5), (0, 6), (4, 6)]),
  ('X', [(0, 0), (4, 0), (0, 1), (4, 1), (1, 2), (3, 2), (2, 3), (1, 4), (3, 4), (0, 5), (4, 5), (0, 6), (4, 6)]),
  ('Y', [(0, 0), (4, 0), (0, 1), (4, 1), (1, 2), (3, 2), (2, 3), (2, 4), (2, 5), (2, 6)]),
  ('Z', [(0, 0), (1, 0), (2, 0), (3, 0), (4, 0), (4, 1), (3, 2), (2, 3), (1, 4), (0, 5), (0, 6), (1, 6), (2, 6), (3, 6), (4, 6)]),
  ('a', [(1, 2), (2, 2), (3, 2), (4, 3), (1, 4), (2, 4), (3, 4), (4, 4), (0, 5), (4, 5), (1, 6), (2, 6), (3, 6), (4, 6)]),
  ('b', [(0, 0), (0, 1), (0, 2), (2, 2), (3, 2), (0, 3), (1, 3), (4, 3), (0, 4), (4, 4), (0, 5), (4, 5), (0, 6), (1, 6), (2, 6), (3, 6)]),
  ('c', [(1, 2), (2, 2), (3, 2), (0, 3), (0, 4), (0, 5), (4, 5), (1, 6), (2, 6), (3, 6)]),
  ('d', [(4, 0), (4, 1), (1, 2), (2, 2), (4, 2), (0, 3), (3, 3), (4, 3), (0, 4), (4, 4), (0, 5), (4, 5), (1, 6), (2, 6), (3, 6), (4, 6)]),
  ('e', [(1, 2), (2, 2), (3, 2), (0, 3), (4, 3), (0, 4), (1, 4), (2, 4), (3, 4), (4, 4), (0, 5), (1, 6), (2, 6), (3, 6)]),
  ('f', [(2, 0), (3, 0), (1, 1), (4, 1), (1, 2), (0, 3), (1, 3), (2, 3), (1, 4), (1, 5), (1, 6)]),
  ('g', [(1, 2), (2, 2), (3, 2), (4, 2), (0, 3), (4, 3), (1, 4), (2, 4), (3, 4), (4, 4), (4, 5), (2, 6), (3, 6)]),
  ('h', [(0, 0), (0, 1), (0, 2), (2, 2), (3, 2), (0, 3), (1, 3), (4, 3), (0, 4), (4, 4), (0, 5), (4, 5), (0, 6), (4, 6)]),
  ('i', [(2, 0), (1, 2), (2, 2), (2, 3), (2, 4), (2, 5), (1, 6), (2, 6), (3, 6)]),
  ('j', [(3, 0), (2, 2), (3, 2), (3, 3), (3, 4), (0, 5), (3, 5), (1, 6), (2, 6)]),
  ('k', [(1, 0), (1, 1), (1, 2), (4, 2), (1, 3), (3, 3), (1, 4), (2, 4), (1, 5), (3, 5), (1, 6), (4, 6)]),
  ('l', [(1, 0), (2, 0), (2, 1), (2, 2), (2, 3), (2, 4), (2, 5), (1, 6), (2, 6), (3, 6)]),
  ('m', [(0, 2), (1, 2), (3, 2), (0, 3), (2, 3), (4, 3), (0, 4), (2, 4), (4, 4), (0, 5), (4, 5), (0, 6), (4, 6)]),
  ('n', [(0, 2), (2, 2), (3, 2), (0, 3), (1, 3), (4, 3), (0, 4), (4, 4), (0, 5), (4, 5), (0, 6), (4, 6)]),
  ('o', [(1, 2), (2, 2), (3, 2), (0, 3), (4, 3), (0, 4), (4, 4), (0, 5), (4, 5), (1, 6), (2, 6), (3, 6)]),
  ('p', [(0, 2), (1, 2), (2, 2), (3, 2), (0, 3), (4, 3), (0, 4), (1, 4), (2, 4), (3, 4), (0, 5), (0, 6)]),
  ('q', [(1, 2), (2, 2), (4, 2), (0, 3), (3, 3), (4, 3), (1, 4), (2, 4), (3, 4), (4, 4), (4, 5), (4, 6)]),
  ('r', [(0, 2), (2, 2), (3, 2), (0, 3), (1, 3), (4, 3), (0, 4), (0, 5), (0, 6)]),
  ('s', [(1, 2), (2, 2), (3, 2), (0, 3), (1, 4), (2, 4), (3, 4), (4, 5), (0, 6), (1, 6), (2, 6), (3, 6)]),
  ('t', [(1, 0), (1, 1), (0, 2), (1, 2), (2, 2), (1, 3), (1, 4), (1, 5), (4, 5), (2, 6), (3, 6)]),
  ('u', [(0, 2), (4, 2), (0, 3), (4, 3), (0, 4), (4, 4), (0, 5), (3, 5), (4, 5), (1, 6), (2, 6), (4, 6)]),
  ('v', [(0, 2), (4, 2), (0, 3), (4, 3), (0, 4), (4, 4), (1, 5), (3, 5), (2, 6)]),
  ('w', [(0, 2), (4, 2), (0, 3), (4, 3), (0, 4), (2, 4), (4, 4), (0, 5), (2, 5), (4, 5), (1, 6), (3, 6)]),
  ('x', [(0, 2), (4, 2), (1, 3), (3, 3), (2, 4), (1, 5), (3, 5), (0, 6), (4, 6)]),
  ('y', [(0, 2), (4, 2), (0, 3), (4, 3), (1, 4), (2, 4), (3, 4), (4, 4), (4, 5), (1, 6), (2, 6), (3, 6)]),
  ('z', [(0, 2), (1, 2), (2, 2), (3, 2), (4, 2), (3, 3), (2, 4), (1, 5), (0, 6), (1, 6), (2, 6), (3, 6), (4, 6)]),
  (' ', []),
  ('0', [(1, 0), (2, 0), (3, 0), (0, 1), (4, 1), (0, 2), (3, 2), (4, 2), (0, 3), (2, 3), (4, 3), (0, 4), (1, 4), (4, 4), (0, 5), (4, 5), (1, 6), (2, 6), (3, 6)]),
  ('1', [(2, 0), (1, 1), (2, 1), (2, 2), (2, 3), (2, 4), (2, 5), (1, 6), (2, 6), (3, 6)]),
  ('2', [(1, 0), (2, 0), (3, 0), (0, 1), (4, 1), (4, 2), (3, 3), (2, 4), (1, 5), (0, 6), (1, 6), (2, 6), (3, 6), (4, 6)]),
  ('3', [(0, 0), (1, 0), (2, 0), (3, 0), (4, 0), (3, 1), (2, 2), (3, 3), (4, 4), (0, 5), (4, 5), (1, 6), (2, 6), (3, 6)]),
  ('4', [(3, 0), (2, 1), (3, 1), (1, 2), (3, 2), (0, 3), (3, 3), (0, 4), (1, 4), (2, 4), (3, 4), (4, 4), (3, 5), (3, 6)]),
  ('5', [(0, 0), (1, 0), (2, 0), (3, 0), (4, 0), (0, 1), (0, 2), (1, 2), (2, 2), (3, 2), (4, 3), (4, 4), (0, 5), (4, 5), (1, 6), (2, 6), (3, 6)]),
  ('6', [(2, 0), (3, 0), (1, 1), (0, 2), (0, 3), (1, 3), (2, 3), (3, 3), (0, 4), (4, 4), (0, 5), (4, 5), (1, 6), (2, 6), (3, 6)]),
  ('7', [(0, 0), (1, 0), (2, 0), (3, 0), (4, 0), (4, 1), (3, 2), (2, 3), (1, 4), (1, 5), (1, 6)]),
  ('8', [(1, 0), (2, 0), (3, 0), (0, 1), (4, 1), (0, 2), (4, 2), (1, 3), (2, 3), (3, 3), (0, 4), (4, 4), (0, 5), (4, 5), (1, 6), (2, 6), (3, 6)]),
  ('9', [(1, 0), (2, 0), (3, 0), (0, 1), (4, 1), (0, 2), (4, 2), (1, 3), (2, 3), (3, 3), (4, 3), (4, 4), (3, 5), (1, 6), (2, 6)])]

/-- Dictionary lookup `self.wordStock[c]`: `none` models a `KeyError`. -/
def glyphOf (c : Char) : Option (List (Int × Int)) :=
  wordStock.lookup c

/-- One observable event of `Display.show`: a `fill(0)` clear, a call to
`pixel(x, y, color)`, or the `time.sleep(0.05)` pause between scroll
steps. -/
inductive ShowEvent where
  | clear : ShowEvent
  | paint (x y color : Int) : ShowEvent
  | sleep : ShowEvent
deriving DecidableEq

/-- A trace of `Display.show`: the events emitted so far and either
normal completion or the character whose dictionary lookup raised
`KeyError`. -/
abbrev Trace := List ShowEvent × Except Char Unit

/-- Sequencing of traces: the second part runs only when the first
completed normally. -/
def seqT (a : Trace) (b : Unit → Trace) : Trace :=
  match a with
  | (tr, .ok ()) => ((tr ++ (b ()).1 : List ShowEvent), (b ()).2)
  | (tr, .error e) => (tr, .error e)

/-- The static path of `Display.show` (string length < 4): for the
character at index `i`, paint each glyph offset at
`(dx + i*6, dy)` with color 10; an unmapped character raises. -/
def staticChars : List Char → Nat → Trace
  | [], _ => ([], .ok ())
  | c :: rest, i =>
    match glyphOf c with
    | none => ([], .error c)
    | some g =>
      seqT ((g.map fun p => ShowEvent.paint (p.1 + (i : Int) * 6) p.2 10), .ok ())
        (fun _ => staticChars rest (i + 1))

/-- One character of one scroll step of `Display.show`: with
`skewing = i*6 + offset`, paint each glyph offset whose shifted column
`dx + skewing` is nonnegative, with color 20. -/
def scrollChars : List Char → Nat → Int → Trace
  | [], _, _ => ([], .ok ())
  | c :: rest, i, off =>
    match glyphOf c with
    | none => ([], .error c)
    | some g =>
      let skew := (i : Int) * 6 + off
      seqT ((g.filterMap fun p =>
              if p.1 + skew ≥ 0 then some (ShowEvent.paint (p.1 + skew) p.2 20)
              else none), .ok ())
        (fun _ => scrollChars rest (i + 1) off)

/-- The scroll loop body of `Display.show`: for each offset in turn, draw
every character, then sleep and clear. -/
def scrollSteps (s : List Char) : List Int → Trace
  | [] => ([], .ok ())
  | off :: rest =>
    seqT (scrollChars s 0 off) fun _ =>
    seqT ([ShowEvent.sleep, ShowEvent.clear], .ok ()) fun _ =>
    scrollSteps s rest

/-- Python `range(start, stop, -1)`: the descending list
`start, start-1, ...`, empty when `start ≤ stop`, excluding `stop`. -/
def pyRangeDown (start stop : Int) : List Int :=
  (List.range (start - stop).toNat).map (fun i : Nat => start - (i : Int))

/-- `Display.show(string_list)`: clear with `fill(0)`, then the static
path when the length is < 4, then the scroll loop over
`range(0, -6*len, -1)` when the length is > 3. -/
def showTrace (s : List Char) : Trace :=
  seqT ([ShowEvent.clear], .ok ()) fun _ =>
  seqT (if s.length < 4 then staticChars s 0 else ([], .ok ())) fun _ =>
  (if s.length > 3 then scrollSteps s (pyRangeDown 0 (-(6 * (s.length : Int))))
   else ([], .ok ()))

/-- The number of `sleep` events in a trace: one per scroll paint step. -/
def countSleeps (t : List ShowEvent) : Nat :=
  t.countP (fun e => match e with | ShowEvent.sleep => true | _ => false)

end Display

open Matrix

/-- Claim C1: the pixel address translator computes, for every logical
coordinate with `0 ≤ x < 17` and `0 ≤ y < 7`, `x*16 + (7 - y)` when
`x ≤ 8` and `(17 - x)*16 + (y + 8)` when `x > 8`; the boundary column
`x = 8` is handled by the first branch. -/
theorem pixel_addr_branches (x y : Int) (hx0 : 0 ≤ x) (hx : x < 17)
    (hy0 : 0 ≤ y) (hy : y < 7) :
    (x ≤ 8 → _pixel_addr x y = x * 16 + (7 - y)) ∧
    (8 < x → _pixel_addr x y = (17 - x) * 16 + (y + 8)) := by
  unfold _pixel_addr
  refine ⟨fun h => ?_, fun h => ?_⟩
  · rw [if_neg (by omega)]
  · rw [if_pos h]

/-- Witness for C1 at the boundary column `x = 8`. -/
theorem pixel_addr_branches_witness :
    Matrix._pixel_addr 8 0 = 8 * 16 + (7 - 0) :=
  (pixel_addr_branches 8 0 (by decide) (by decide) (by decide) (by decide)).1
    (by decide)

/-- Claim C2: over the 119 valid logical coordinates the address
translator stays inside `[0, 144)` and is injective. -/
theorem pixel_addr_bijection :
    (∀ x y : Int, 0 ≤ x → x < 17 → 0 ≤ y → y < 7 →
      0 ≤ _pixel_addr x y ∧ _pixel_addr x y < 144) ∧
    (∀ x₁ y₁ x₂ y₂ : Int, 0 ≤ x₁ → x₁ < 17 → 0 ≤ y₁ → y₁ < 7 →
      0 ≤ x₂ → x₂ < 17 → 0 ≤ y₂ → y₂ < 7 →
      _pixel_addr x₁ y₁ = _pixel_addr x₂ y₂ → x₁ = x₂ ∧ y₁ = y₂) := by
  constructor
  · intro x y hx0 hx hy0 hy
    unfold _pixel_addr
    split <;> omega
  · intro x₁ y₁ x₂ y₂ h1 h2 h3 h4 h5 h6 h7 h8 heq
    unfold _pixel_addr at heq
    split at heq <;> split at heq <;> omega

/-- Witness for C2 at a concrete coordinate. -/
theorem pixel_addr_bijection_witness :
    0 ≤ Matrix._pixel_addr 16 6 ∧ Matrix._pixel_addr 16 6 < 144 :=
  pixel_addr_bijection.1 16 6 (by decide) (by decide) (by decide) (by decide)

/-- Counterexample for C3: `audio_play(46, 24)` has an in-range scaled
sample rate (1) and an out-of-range scaled gain (8); it raises, but only
after the ADC register write, so the rejected call has performed bus
writes. -/
theorem audio_play_gain_cex :
    (Matrix.audio_play 46 24 false false).1 ≠ [] ∧
    (Matrix.audio_play 46 24 false false).2 =
      Except.error "Audio gain out of range" :=
  ⟨by decide, rfl⟩

/-- Claim C3 as amended: with nonzero sample rate, an out-of-range scaled
sample rate raises before any register write, while an out-of-range
scaled gain raises only after the ADC register write (bank select plus
ADC byte), leaving the gain and mode registers unwritten. -/
theorem audio_play_gain_after_adc_write (sr g : Int) (ae af : Bool)
    (h0 : sr ≠ 0) :
    (¬ (1 ≤ Int.fdiv sr 46 ∧ Int.fdiv sr 46 ≤ 256) →
      audio_play sr g ae af = ([], Except.error "Sample rate out of range")) ∧
    ((1 ≤ Int.fdiv sr 46 ∧ Int.fdiv sr 46 ≤ 256) →
      ¬ (0 ≤ Int.fdiv g 3 ∧ Int.fdiv g 3 ≤ 7) →
      audio_play sr g ae af =
        (registerWrite _CONFIG_BANK _ADC_REGISTER (Int.fdiv sr 46 % 256),
         Except.error "Audio gain out of range")) := by
  constructor
  · intro h
    unfold audio_play
    rw [if_neg h0, if_pos h]
  · intro h hg
    unfold audio_play
    rw [if_neg h0, if_neg (not_not_intro h), if_pos hg]

/-- Witness for C3's amended statement. -/
theorem audio_play_gain_after_adc_write_witness :
    Matrix.audio_play 46 24 true true =
      (Matrix.registerWrite _CONFIG_BANK _ADC_REGISTER (Int.fdiv 46 46 % 256),
       Except.error "Audio gain out of range") :=
  (audio_play_gain_after_adc_write 46 24 true true (by decide)).2
    (by decide) (by decide)

/-- Counterexample for C4: `pixel(17, 0, 10)` has `x = 17` outside the
valid logical range `[0, 17)`, yet the source's `0 <= x <= self.width`
check lets it through, so it performs a register write. -/
theorem pixel_boundary_cex :
    (Matrix.pixel 0 17 0 (some 10) none).1 ≠ [] ∧
    (Matrix.pixel 0 17 0 (some 10) none).2 = Except.ok () :=
  ⟨by decide, rfl⟩

/-- Claim C4 as amended: `pixel` silently no-ops, with no error and no
register write, exactly for coordinates with `x < 0`, `x > 17`, `y < 0`
or `y > 7` (such as `x = 20`); the boundary values `x = 17` and `y = 7`
pass the source's inclusive bounds check and do write. -/
theorem pixel_out_of_range_silent (cur x y c : Int) (fr : Option Int)
    (h : x < 0 ∨ width < x ∨ y < 0 ∨ height < y) :
    pixel cur x y (some c) fr = ([], Except.ok ()) := by
  unfold pixel width height
  unfold width height at h
  by_cases hx : 0 ≤ x ∧ x ≤ 17
  · rw [if_neg (not_not_intro hx), if_pos (by omega)]
  · rw [if_pos hx]

/-- Witness for C4's amended statement at `x = 20`. -/
theorem pixel_out_of_range_silent_witness :
    Matrix.pixel 0 20 0 (some 10) none = ([], Except.ok ()) :=
  pixel_out_of_range_silent 0 20 0 10 none (by right; left; decide)

/-- Counterexample for C6: `fill(color=300)` raises, but only after the
bank-select write, so a rejected fill is not free of bus writes. -/
theorem fill_bank_write_cex :
    (Matrix.fill 0 (some 300) none none).1 ≠ [] ∧
    (Matrix.fill 0 (some 300) none none).2 =
      Except.error "Color out of range" :=
  ⟨by decide, rfl⟩

/-- Claim C6 as amended: for a color outside `[0, 255]`, `fill` raises
after exactly the one bank-select write and no data-register write, and
`pixel` (with coordinates that pass its bounds check) raises with zero
bus writes. -/
theorem color_out_of_range (cur x y c : Int) (b : Option Bool)
    (fr : Option Int) (hc : c < 0 ∨ 255 < c) :
    (fill cur (some c) b fr =
      (bankWrite (fr.getD cur), Except.error "Color out of range")) ∧
    (0 ≤ x → x ≤ width → 0 ≤ y → y ≤ height →
      pixel cur x y (some c) fr = ([], Except.error "Color out of range")) := by
  have h3 : ¬ (0 ≤ c ∧ c ≤ 255) := by omega
  constructor
  · simp [fill, h3]
  · intro hx0 hx hy0 hy
    have h1 : (0 ≤ x ∧ x ≤ width) := ⟨hx0, hx⟩
    have h2 : (0 ≤ y ∧ y ≤ height) := ⟨hy0, hy⟩
    simp [pixel, h1, h2, h3]

/-- Witness for C6's amended statement. -/
theorem color_out_of_range_witness :
    Matrix.fill 2 (some 300) none none =
      (Matrix.bankWrite 2, Except.error "Color out of range") ∧
    Matrix.pixel 2 3 4 (some 300) none =
      ([], Except.error "Color out of range") :=
  ⟨(color_out_of_range 2 3 4 300 none none (by decide)).1,
   (color_out_of_range 2 3 4 300 none none (by decide)).2
     (by decide) (by decide) (by decide) (by decide)⟩

/-- Counterexample for C7: the source accepts `frame = 8`
(`0 <= frame <= 8`), stores it and writes the frame register, so the
explicit index 8 is not rejected. -/
theorem frame_eight_accepted_cex :
    Matrix.frame 0 8 true =
      (8, Matrix.registerWrite _CONFIG_BANK _FRAME_REGISTER 8,
       Except.ok ()) := rfl

/-- Claim C7 as amended: an explicit frame index outside `[0, 8]` raises
and leaves the stored active frame index unchanged with no register
write; the boundary value 8 is accepted by the source's inclusive check. -/
theorem frame_out_of_range (cur f : Int) (sh : Bool) (h : f < 0 ∨ 8 < f) :
    Matrix.frame cur f sh = (cur, [], Except.error "Frame out of range") := by
  unfold Matrix.frame
  rw [if_pos (by omega)]

/-- Witness for C7's amended statement at `f = 9`. -/
theorem frame_out_of_range_witness :
    Matrix.frame 3 9 true = (3, [], Except.error "Frame out of range") :=
  frame_out_of_range 3 9 true (by decide)

/-- Claim C9: a nonzero rate writes `(rate // 270) & 0x07 | 0x08` to the
blink register, rate 0 writes 0, neither touches the mode register, and
the no-argument query decodes the stored value back to
`((rate // 270) & 0x07) * 270`. -/
theorem blink_rate_roundtrip (r : Nat) :
    (r ≠ 0 →
      blink r = registerWrite _CONFIG_BANK _BLINK_REGISTER
        (((r / 270) &&& 0x07 ||| 0x08 : Nat) : Int) ∧
      blinkQuery (blinkRegisterValue r) = ((r / 270) &&& 0x07) * 270) ∧
    (r = 0 → blink r = registerWrite _CONFIG_BANK _BLINK_REGISTER 0) ∧
    (∀ w ∈ blink r, w.reg ≠ _MODE_REGISTER) := by
  have key : ∀ m : Nat, m < 8 → (m ||| 8) &&& 7 = m := by decide
  refine ⟨fun hr => ⟨?_, ?_⟩, fun hr => ?_, ?_⟩
  · unfold blink
    rw [if_neg hr]
  · unfold blinkQuery blinkRegisterValue
    rw [if_neg hr,
      key ((r / 270) &&& 0x07)
        (by have := Nat.and_le_right (n := r / 270) (m := 7); omega)]
  · unfold blink
    rw [if_pos hr]
  · intro w hw
    unfold blink at hw
    split at hw <;>
      simp only [registerWrite, bankWrite, List.mem_append, List.mem_singleton,
        List.mem_cons, List.not_mem_nil, or_false] at hw <;>
      rcases hw with rfl | rfl <;>
      simp [_BANK_ADDRESS, _BLINK_REGISTER, _MODE_REGISTER]

/-- Witness for C9 at `rate = 1000`. -/
theorem blink_rate_roundtrip_witness :
    Matrix.blinkQuery (Matrix.blinkRegisterValue 1000) =
      ((1000 / 270) &&& 0x07) * 270 :=
  ((blink_rate_roundtrip 1000).1 (by decide)).2

namespace Display

theorem seqT_ok (a : Trace) (b : Unit → Trace) (h : a.2 = Except.ok ()) :
    seqT a b = (a.1 ++ (b ()).1, (b ()).2) := by
  obtain ⟨tr, r⟩ := a
  cases r with
  | ok u => cases u; rfl
  | error e => simp at h

theorem seqT_error (a : Trace) (b : Unit → Trace) (e : Char)
    (h : a.2 = Except.error e) :
    seqT a b = (a.1, Except.error e) := by
  obtain ⟨tr, r⟩ := a
  cases r with
  | ok u => simp at h
  | error f => simp only [Except.error.injEq] at h; subst h; rfl

theorem countSleeps_append (a b : List ShowEvent) :
    countSleeps (a ++ b) = countSleeps a + countSleeps b :=
  List.countP_append _ _ _

theorem countSleeps_eq_zero (l : List ShowEvent)
    (h : ∀ e ∈ l, e ≠ ShowEvent.sleep) : countSleeps l = 0 := by
  rw [countSleeps, List.countP_eq_zero]
  intro e he
  have := h e he
  cases e <;> simp_all

/-- A static paint run has no sleep events. -/
theorem countSleeps_staticPaints (g : List (Int × Int)) (i : Nat) :
    countSleeps (g.map fun p => ShowEvent.paint (p.1 + (i : Int) * 6) p.2 10)
      = 0 := by
  apply countSleeps_eq_zero
  intro e he
  rw [List.mem_map] at he
  obtain ⟨p, _, rfl⟩ := he
  simp

/-- A clipped scroll paint run has no sleep events. -/
theorem countSleeps_scrollPaints (g : List (Int × Int)) (skew : Int) :
    countSleeps (g.filterMap fun p =>
      if p.1 + skew ≥ 0 then some (ShowEvent.paint (p.1 + skew) p.2 20)
      else none) = 0 := by
  apply countSleeps_eq_zero
  intro e he
  rw [List.mem_filterMap] at he
  obtain ⟨p, _, hfe⟩ := he
  by_cases hp : p.1 + skew ≥ 0
  · rw [if_pos hp] at hfe
    cases hfe
    simp
  · rw [if_neg hp] at hfe
    cases hfe

/-- With every character mapped, the static path completes normally and
emits no sleep events. -/
theorem staticChars_ok : ∀ (s : List Char) (i : Nat),
    (∀ c ∈ s, (glyphOf c).isSome) →
    (staticChars s i).2 = Except.ok () ∧
      countSleeps (staticChars s i).1 = 0
  | [], _, _ => ⟨rfl, rfl⟩
  | c :: rest, i, hg => by
    obtain ⟨g, hgc⟩ := Option.isSome_iff_exists.mp (hg c (by simp))
    obtain ⟨h1, h2⟩ := staticChars_ok rest (i + 1)
      (fun d hd => hg d (by simp [hd]))
    simp only [staticChars, hgc]
    rw [seqT_ok _ _ rfl]
    refine ⟨h1, ?_⟩
    rw [countSleeps_append, countSleeps_staticPaints, h2]

/-- With every character mapped, one character of one scroll step
completes normally and emits no sleep events. -/
theorem scrollChars_ok : ∀ (s : List Char) (i : Nat) (off : Int),
    (∀ c ∈ s, (glyphOf c).isSome) →
    (scrollChars s i off).2 = Except.ok () ∧
      countSleeps (scrollChars s i off).1 = 0
  | [], _, _, _ => ⟨rfl, rfl⟩
  | c :: rest, i, off, hg => by
    obtain ⟨g, hgc⟩ := Option.isSome_iff_exists.mp (hg c (by simp))
    obtain ⟨h1, h2⟩ := scrollChars_ok rest (i + 1) off
      (fun d hd => hg d (by simp [hd]))
    simp only [scrollChars, hgc]
    rw [seqT_ok _ _ rfl]
    refine ⟨h1, ?_⟩
    rw [countSleeps_append, countSleeps_scrollPaints, h2]

/-- With every character mapped, the scroll loop completes normally and
emits exactly one sleep event per offset. -/
theorem scrollSteps_count : ∀ (offs : List Int) (s : List Char),
    (∀ c ∈ s, (glyphOf c).isSome) →
    (scrollSteps s offs).2 = Except.ok () ∧
      countSleeps (scrollSteps s offs).1 = offs.length
  | [], _, _ => ⟨rfl, rfl⟩
  | off :: rest, s, hg => by
    obtain ⟨h1, h2⟩ := scrollChars_ok s 0 off hg
    obtain ⟨h3, h4⟩ := scrollSteps_count rest s hg
    simp only [scrollSteps]
    rw [seqT_ok _ _ h1, seqT_ok _ _ rfl]
    refine ⟨h3, ?_⟩
    rw [countSleeps_append, h2, countSleeps_append, h4]
    have hone : countSleeps [ShowEvent.sleep, ShowEvent.clear] = 1 := rfl
    simp only [List.length_cons]
    rw [hone]
    omega

/-- The static path raises on the first unmapped character. -/
theorem staticChars_error : ∀ (pre : List Char) (c : Char)
    (post : List Char) (i : Nat),
    (∀ d ∈ pre, (glyphOf d).isSome) → glyphOf c = none →
    (staticChars (pre ++ c :: post) i).2 = Except.error c
  | [], c, post, i, _, hc => by
    simp only [List.nil_append, staticChars, hc]
  | d :: pre, c, post, i, hpre, hc => by
    obtain ⟨g, hg⟩ := Option.isSome_iff_exists.mp (hpre d (by simp))
    simp only [List.cons_append, staticChars, hg]
    rw [seqT_ok _ _ rfl]
    exact staticChars_error pre c post (i + 1)
      (fun e he => hpre e (by simp [he])) hc

/-- One scroll step raises on the first unmapped character, for any
offset. -/
theorem scrollChars_error : ∀ (pre : List Char) (c : Char)
    (post : List Char) (i : Nat) (off : Int),
    (∀ d ∈ pre, (glyphOf d).isSome) → glyphOf c = none →
    (scrollChars (pre ++ c :: post) i off).2 = Except.error c
  | [], c, post, i, off, _, hc => by
    simp only [List.nil_append, scrollChars, hc]
  | d :: pre, c, post, i, off, hpre, hc => by
    obtain ⟨g, hg⟩ := Option.isSome_iff_exists.mp (hpre d (by simp))
    simp only [List.cons_append, scrollChars, hg]
    rw [seqT_ok _ _ rfl]
    exact scrollChars_error pre c post (i + 1) off
      (fun e he => hpre e (by simp [he])) hc

/-- The scroll loop propagates an error from its first step. -/
theorem scrollSteps_error (s : List Char) (off : Int) (rest : List Int)
    (e : Char) (h : (scrollChars s 0 off).2 = Except.error e) :
    (scrollSteps s (off :: rest)).2 = Except.error e := by
  simp only [scrollSteps]
  rw [seqT_error _ _ e h]

theorem pyRangeDown_length (start stop : Int) :
    (pyRangeDown start stop).length = (start - stop).toNat := by
  unfold pyRangeDown
  rw [List.length_map, List.length_range]

theorem pyRangeDown_mem (start stop off : Int) :
    off ∈ pyRangeDown start stop ↔ stop < off ∧ off ≤ start := by
  unfold pyRangeDown
  rw [List.mem_map]
  constructor
  · rintro ⟨i, hi, rfl⟩
    rw [List.mem_range] at hi
    omega
  · intro h
    refine ⟨(start - off).toNat, ?_, by omega⟩
    rw [List.mem_range]
    omega

/-- With every character mapped and length at least 4, `show` emits
exactly `6 * length` sleep events (one per scroll paint step). -/
theorem showSleepCount (s : List Char) (h4 : 4 ≤ s.length)
    (hg : ∀ c ∈ s, (glyphOf c).isSome) :
    countSleeps (showTrace s).1 = 6 * s.length := by
  obtain ⟨h1, h2⟩ :=
    scrollSteps_count (pyRangeDown 0 (-(6 * (s.length : Int)))) s hg
  unfold showTrace
  rw [if_neg (by omega), if_pos (by omega), seqT_ok _ _ rfl, seqT_ok _ _ rfl]
  simp only [List.nil_append]
  rw [countSleeps_append, h2, pyRangeDown_length]
  simp [countSleeps]
  omega

end Display

open Display

/-- Counterexample for C5: the 5-character string `HELLO` produces 30
scroll paint steps (one sleep each), not `6*5 + 1 = 31`, and the shift
value −30 is not among the offsets of the scroll loop. -/
theorem show_scroll_steps_cex :
    countSleeps (showTrace ("HELLO".toList)).1 ≠ 6 * 5 + 1 ∧
    (-30 : Int) ∉ pyRangeDown 0 (-(6 * 5) : Int) := by
  constructor
  · rw [showSleepCount ("HELLO".toList) (by decide) (by decide)]
    decide
  · decide

/-- Claim C5 as amended: for a string of length `n ≥ 4` whose characters
are all in the glyph table, the scroll renderer performs one frame-paint
step for each shift value from 0 down to `-(6*n) + 1` inclusive — the
stop value `-(6*n)` is excluded — for exactly `6*n` paint steps; a
5-character string produces 30 steps. -/
theorem show_scroll_paint_steps (s : List Char) (h4 : 4 ≤ s.length)
    (hg : ∀ c ∈ s, (glyphOf c).isSome) :
    countSleeps (showTrace s).1 = 6 * s.length ∧
    (∀ off : Int, off ∈ pyRangeDown 0 (-(6 * (s.length : Int))) ↔
      -(6 * (s.length : Int)) < off ∧ off ≤ 0) := by
  refine ⟨showSleepCount s h4 hg, fun off => ?_⟩
  exact pyRangeDown_mem 0 (-(6 * (s.length : Int))) off

/-- Witness for C5's amended statement on `HELLO`. -/
theorem show_scroll_paint_steps_witness :
    countSleeps (showTrace ("HELLO".toList)).1 = 6 * 5 :=
  (show_scroll_paint_steps ("HELLO".toList) (by decide) (by decide)).1

/-- Claim C8: `show` takes the static path — a single clear followed by
the static paints, with no timed animation step — exactly when the
string length is below 4, and the animated scroll path, with at least
one timed step, exactly when the length is 4 or more. -/
theorem show_path_boundary (s : List Char)
    (hg : ∀ c ∈ s, (glyphOf c).isSome) :
    (s.length < 4 →
      (showTrace s).1 = ShowEvent.clear :: (staticChars s 0).1 ∧
      countSleeps (showTrace s).1 = 0) ∧
    (4 ≤ s.length →
      (showTrace s).1 = ShowEvent.clear ::
        (scrollSteps s (pyRangeDown 0 (-(6 * (s.length : Int))))).1 ∧
      0 < countSleeps (showTrace s).1) := by
  constructor
  · intro hlen
    obtain ⟨h1, h2⟩ := staticChars_ok s 0 hg
    unfold showTrace
    rw [if_pos hlen, if_neg (by omega), seqT_ok _ _ rfl, seqT_ok _ _ h1]
    constructor
    · simp
    · rw [countSleeps_append, countSleeps_append, h2]
      rfl
  · intro hlen
    obtain ⟨h1, h2⟩ :=
      scrollSteps_count (pyRangeDown 0 (-(6 * (s.length : Int)))) s hg
    unfold showTrace
    rw [if_neg (by omega), if_pos (by omega), seqT_ok _ _ rfl, seqT_ok _ _ rfl]
    constructor
    · simp
    · rw [countSleeps_append, countSleeps_append, h2, pyRangeDown_length]
      have : ((0 : Int) - -(6 * (s.length : Int))).toNat = 6 * s.length := by
        omega
      rw [this]
      simp [countSleeps]
      omega

/-- Witness for C8: `AB` (length 2) renders with no timed step, `ABCD`
(length 4) with at least one. -/
theorem show_path_boundary_witness :
    countSleeps (showTrace ("AB".toList)).1 = 0 ∧
    0 < countSleeps (showTrace ("ABCD".toList)).1 :=
  ⟨((show_path_boundary ("AB".toList) (by decide)).1 (by decide)).2,
   ((show_path_boundary ("ABCD".toList) (by decide)).2 (by decide)).2⟩

/-- Claim C10: when the input contains a character outside the glyph
table, `show` raises a lookup error carrying the first such character —
it does not skip it — and this happens after the initial frame clear
(the trace begins with the clear event). -/
theorem show_unmapped_char_raises (pre post : List Char) (c : Char)
    (hpre : ∀ d ∈ pre, (glyphOf d).isSome) (hc : glyphOf c = none) :
    (showTrace (pre ++ c :: post)).2 = Except.error c ∧
    (showTrace (pre ++ c :: post)).1.head? = some ShowEvent.clear := by
  by_cases hlen : (pre ++ c :: post).length < 4
  · have h1 := staticChars_error pre c post 0 hpre hc
    unfold showTrace
    rw [if_pos hlen, seqT_ok _ _ rfl, seqT_error _ _ c h1]
    exact ⟨rfl, by simp⟩
  · have hpos : 0 < (pyRangeDown 0
        (-(6 * ((pre ++ c :: post).length : Int)))).length := by
      rw [pyRangeDown_length]
      have : 4 ≤ (pre ++ c :: post).length := by omega
      omega
    obtain ⟨o, rest, ho⟩ :=
      List.exists_cons_of_ne_nil (List.length_pos.mp hpos)
    have h1 := scrollSteps_error (pre ++ c :: post) o rest c
      (scrollChars_error pre c post 0 o hpre hc)
    unfold showTrace
    rw [if_neg hlen, if_pos (by omega), ho, seqT_ok _ _ rfl, seqT_ok _ _ rfl]
    exact ⟨by simp [h1], by simp⟩

/-- Witness for C10 on the string `A!`. -/
theorem show_unmapped_char_raises_witness :
    (showTrace (['A'] ++ '!' :: [])).2 = Except.error '!' ∧
    (showTrace (['A'] ++ '!' :: [])).1.head? = some ShowEvent.clear :=
  show_unmapped_char_raises ['A'] [] '!' (by decide) (by decide)

end PicoEd
